import Mathlib

/-!
Verification development for the Salah Travel & Study multi-agent system
(`tools.py`, `agents.py`, `config.py`).

Python dictionaries returned by the tool adapters are embedded as
association lists from string keys to a small value type `PyVal`.
External HTTP effects are embedded as explicit world oracles: each
adapter takes a record of functions describing what every outbound
request would produce (a payload, or a raised exception carried as a
message).  Exceptions inside a `try` block are embedded as `Except`
values; the adapter catches them exactly where the source does.
-/

/-- Values occurring in the dictionaries produced by the tools. -/
inductive PyVal where
  | str (s : String)
  | int (n : Int)
  | bool (b : Bool)
  | dicts (l : List (List (String × PyVal)))

/-- A Python dict as an association list (insertion order preserved). -/
abbrev Dict := List (String × PyVal)

/-- Key membership in a dict. -/
def hasKey (k : String) (d : Dict) : Bool :=
  d.any (fun kv => kv.1 == k)

/-- Lookup of a key in a dict. -/
def lookupVal (k : String) (d : Dict) : Option PyVal :=
  (d.find? (fun kv => kv.1 == k)).map Prod.snd

/-- Outcome of a single HTTP request: a decoded payload, or a raised
exception summarised by its message (`str(e)` in the source). -/
inductive HttpOutcome (α : Type) where
  | ok (a : α)
  | exn (msg : String)

/- ===================== get_weather (tools.py) ===================== -/

/-- One geocoding hit, `geo_data["results"][i]`.  `latitude`,
`longitude` and `name` are accessed by direct indexing in the source;
`country` is read with `.get("country", "")`. -/
structure GeoHit where
  latitude : Int
  longitude : Int
  name : String
  country : Option String

/-- Geocoding response body; `results = none` models a JSON body with
no `results` key (the source tests `"results" not in geo_data`). -/
structure GeoResp where
  results : Option (List GeoHit)

/-- The `current` object of the forecast response; every field is read
with `.get(_, 0)` in the source, hence `Option`. -/
structure WeatherCurrent where
  temperature_2m : Option Int
  weather_code : Option Nat
  wind_speed_10m : Option Int
  relative_humidity_2m : Option Nat

/-- Forecast response body; `current` is read with `.get("current", {})`. -/
structure ForecastResp where
  current : Option WeatherCurrent

/-- World oracle for `get_weather`: the geocoding request keyed by city
name, and the forecast request keyed by latitude/longitude. -/
structure WeatherWorld where
  geocode : String → HttpOutcome GeoResp
  forecast : Int → Int → HttpOutcome ForecastResp

def kCity : String := "city"
def kCountry : String := "country"
def kTemperature : String := "temperature"
def kTemperatureUnit : String := "temperature_unit"
def kCondition : String := "condition"
def kDescription : String := "description"
def kWindSpeed : String := "wind_speed"
def kWindUnit : String := "wind_unit"
def kHumidity : String := "humidity"
def kError : String := "error"
def degreesC : String := "°C"
def kmhUnit : String := "km/h"
def condUnknown : String := "Unknown"
def couldNotFetchPre : String := "Could not fetch weather: "
def emptyStr : String := ""

/-- `_get_weather_description` from tools.py: the WMO code table with
default `("Unknown", "Unknown conditions")`. -/
def weatherDescription (code : Nat) : String × String :=
  match code with
  | 0 => ( "Clear", "Clear sky")
  | 1 => ( "Mostly Clear", "Mainly clear")
  | 2 => ( "Partly Cloudy", "Partly cloudy")
  | 3 => ( "Cloudy", "Overcast")
  | 45 => ( "Foggy", "Fog")
  | 48 => ( "Foggy", "Depositing rime fog")
  | 51 => ( "Light Drizzle", "Light drizzle")
  | 53 => ( "Drizzle", "Moderate drizzle")
  | 55 => ( "Heavy Drizzle", "Dense drizzle")
  | 61 => ( "Light Rain", "Slight rain")
  | 63 => ( "Rain", "Moderate rain")
  | 65 => ( "Heavy Rain", "Heavy rain")
  | 71 => ( "Light Snow", "Slight snow")
  | 73 => ( "Snow", "Moderate snow")
  | 75 => ( "Heavy Snow", "Heavy snow")
  | 80 => ( "Light Showers", "Slight rain showers")
  | 81 => ( "Showers", "Moderate rain showers")
  | 82 => ( "Heavy Showers", "Violent rain showers")
  | 95 => ( "Thunderstorm", "Thunderstorm")
  | 96 => ( "Thunderstorm", "Thunderstorm with slight hail")
  | 99 => ( "Severe Thunderstorm", "Thunderstorm with heavy hail")
  | _ => (condUnknown, "Unknown conditions")

/-- The `{"error": f"City '{city}' not found"}` message. -/
def cityNotFoundMsg (city : String) : String :=
  "City \x27" ++ city ++ "\x27 not found"

/-- The error dict returned when geocoding yields no results. -/
def cityNotFoundDict (city : String) : Dict :=
  [(kError, PyVal.str (cityNotFoundMsg city))]

/-- The mock fallback dict built in the `except` clause of `get_weather`. -/
def mockWeatherDict (city msg : String) : Dict :=
  [(kCity, PyVal.str city),
   (kTemperature, PyVal.int 20),
   (kCondition, PyVal.str condUnknown),
   (kDescription, PyVal.str msg)]

/-- The full success payload of `get_weather`. -/
def weatherSuccessDict (hit : GeoHit) (wd : ForecastResp) : Dict :=
  let cur := wd.current.getD ⟨none, none, none, none⟩
  let cd := weatherDescription (cur.weather_code.getD 0)
  [(kCity, PyVal.str hit.name),
   (kCountry, PyVal.str (hit.country.getD emptyStr)),
   (kTemperature, PyVal.int (cur.temperature_2m.getD 0)),
   (kTemperatureUnit, PyVal.str degreesC),
   (kCondition, PyVal.str cd.1),
   (kDescription, PyVal.str cd.2),
   (kWindSpeed, PyVal.int (cur.wind_speed_10m.getD 0)),
   (kWindUnit, PyVal.str kmhUnit),
   (kHumidity, PyVal.int (cur.relative_humidity_2m.getD 0))]

/-- The body of the `try` block of `get_weather`: raises (as
`Except.error`) whenever one of the HTTP requests raises. -/
def getWeatherBody (w : WeatherWorld) (city : String) : Except String Dict :=
  match w.geocode city with
  | .exn e => .error e
  | .ok geo =>
    match geo.results with
    | none => .ok (cityNotFoundDict city)
    | some [] => .ok (cityNotFoundDict city)
    | some (hit :: _) =>
      match w.forecast hit.latitude hit.longitude with
      | .exn e => .error e
      | .ok wd => .ok (weatherSuccessDict hit wd)

/-- `get_weather` from tools.py: the try body with its
`except Exception` clause returning the mock fallback dict. -/
def getWeather (w : WeatherWorld) (city : String) : Dict :=
  match getWeatherBody w city with
  | .ok d => d
  | .error e => mockWeatherDict city (couldNotFetchPre ++ e)

/-- The exact key sequence of the success payload of `get_weather`. -/
def isWeatherSuccessShape (d : Dict) : Bool :=
  d.map Prod.fst ==
    [kCity, kCountry, kTemperature, kTemperatureUnit, kCondition,
     kDescription, kWindSpeed, kWindUnit, kHumidity]

/-- The shape of the mock fallback dict of `get_weather`:
`{city, temperature: 20, condition: "Unknown", description}`. -/
def isWeatherMockShape (d : Dict) : Bool :=
  match d with
  | [(k1, PyVal.str _), (k2, PyVal.int t), (k3, PyVal.str c),
     (_, PyVal.str _)] =>
    k1 == kCity && k2 == kTemperature && t == 20 && k3 == kCondition &&
      c == condUnknown
  | _ => false

/- ================ get_public_holidays (tools.py) ================ -/

/-- One holiday object of the Nager.Date response; every field is read
with `.get` in the source, hence `Option`. -/
structure RawHoliday where
  date : Option String
  localName : Option String
  name : Option String
  fixed : Option Bool
  types : Option (List String)

/-- Outcome of the holidays request: a decoded list, an
`requests.exceptions.HTTPError` carrying the response status code and
`str(e)`, or any other exception. -/
inductive HolidayOutcome where
  | ok (hs : List RawHoliday)
  | httpError (status : Nat) (msg : String)
  | exn (msg : String)

/-- World oracle for `get_public_holidays`, keyed by year and the
upper-cased country code interpolated into the URL. -/
structure HolidayWorld where
  req : Nat → String → HolidayOutcome

/-- Exceptions distinguished by the two `except` clauses of
`get_public_holidays`. -/
inductive HolidayExn where
  | httpError (status : Nat) (msg : String)
  | other (msg : String)

def kDate : String := "date"
def kName : String := "name"
def kNameEnglish : String := "name_english"
def kFixed : String := "fixed"
def kType : String := "type"
def commaSpace : String := ", "
def httpErrorPre : String := "HTTP error: "
def unexpectedErrorPre : String := "Unexpected error: "

/-- Formatting of one holiday entry inside the loop of
`get_public_holidays`. -/
def fmtHoliday (h : RawHoliday) : Dict :=
  [(kDate, PyVal.str (h.date.getD emptyStr)),
   (kName, PyVal.str (h.localName.getD (h.name.getD emptyStr))),
   (kNameEnglish, PyVal.str (h.name.getD emptyStr)),
   (kFixed, PyVal.bool (h.fixed.getD false)),
   (kType, PyVal.str (String.intercalate commaSpace (h.types.getD [])))]

/-- The pieces of the f-string of the 404 branch of
`get_public_holidays`, split at the interpolation point and at the
listed example codes. -/
def ccPre : String := "Country code \x27"
def ccMid : String := "\x27 not found. Use ISO 3166-1 alpha-2 codes like: "
def exMA : String := "MA (Morocco)"
def exFR : String := "FR (France)"
def exUS : String := "US (USA)"
def exDE : String := "DE (Germany)"
def exGB : String := "GB (UK)"
def exJP : String := "JP (Japan)"
def exAll : String :=
  exMA ++ commaSpace ++ exFR ++ commaSpace ++ exUS ++ commaSpace ++
    exDE ++ commaSpace ++ exGB ++ commaSpace ++ exJP

/-- The corrective not-found message of `get_public_holidays`
(f-string of the 404 branch, with the original, non-uppercased
country code interpolated). -/
def countryNotFoundMsg (code : String) : String :=
  ccPre ++ code ++ ccMid ++ exAll

/-- The body of the `try` block of `get_public_holidays`. -/
def getPublicHolidaysBody (w : HolidayWorld) (code : String) (year : Nat) :
    Except HolidayExn (List Dict) :=
  match w.req year code.toUpper with
  | .ok hs => .ok (hs.map fmtHoliday)
  | .httpError s m => .error (.httpError s m)
  | .exn m => .error (.other m)

/-- The error entry produced by the `except` clauses of
`get_public_holidays` for each kind of exception. -/
def holidayErrEntry (code : String) (e : HolidayExn) : Dict :=
  match e with
  | .httpError 404 _ => [(kError, PyVal.str (countryNotFoundMsg code))]
  | .httpError _ m => [(kError, PyVal.str (httpErrorPre ++ m))]
  | .other m => [(kError, PyVal.str (unexpectedErrorPre ++ m))]

/-- `get_public_holidays` from tools.py. -/
def getPublicHolidays (w : HolidayWorld) (code : String) (year : Nat) :
    List Dict :=
  match getPublicHolidaysBody w code year with
  | .ok l => l
  | .error e => [holidayErrEntry code e]

/- ================ search_scholarships (tools.py) ================ -/

/-- The decoded JSON of the scholarships API, as discriminated by the
source: a list, a dict (with or without a `scholarships` key), or any
other JSON value. -/
inductive ScholarApi where
  | jsonList (l : List Dict)
  | jsonDict (sch : Option (List Dict))
  | otherJson

/-- Outcome of the scholarships request. -/
inductive ScholarOutcome where
  | ok (d : ScholarApi)
  | exn (msg : String)

/-- World oracle for `search_scholarships`, keyed by the two request
parameters the source sends: lower-cased country and level (the
`field` argument is not part of the request). -/
structure ScholarWorld where
  req : String → String → ScholarOutcome

def kAmount : String := "amount"
def kDeadline : String := "deadline"
def kRequirements : String := "requirements"
def franceKey : String := "france"
def qatarKey : String := "qatar"
def moroccoKey : String := "morocco"

/-- One mock scholarship entry (keys in source insertion order). -/
def mkSch (n a d r de : String) : Dict :=
  [(kName, PyVal.str n),
   (kAmount, PyVal.str a),
   (kDeadline, PyVal.str d),
   (kRequirements, PyVal.str r),
   (kDescription, PyVal.str de)]

/-- The `"france"` list of `_get_mock_scholarships`. -/
def franceScholarships : List Dict :=
  [mkSch ( "Eiffel Excellence Scholarship") ( "€1,700/month + tuition")
     ( "January 10, 2025")
     ( "Under 25 for Master\x27s, excellent academics")
     ( "French government scholarship for international students"),
   mkSch ( "Émile Boutmy Scholarship (Sciences Po)")
     ( "€5,000-10,000/year") ( "February 23, 2025")
     ( "Non-EU, excellent academic record")
     ( "For undergraduate and master\x27s students at Sciences Po Paris"),
   mkSch ( "ENS Paris-Saclay International Scholarship")
     ( "€1,000/month") ( "December 1, 2024")
     ( "Master\x27s level, research focus")
     ( "For international students in sciences"),
   mkSch ( "HEC Paris MBA Scholarship") ( "Up to €30,000") ( "Rolling")
     ( "MBA admission, leadership experience")
     ( "Merit-based scholarship for MBA students"),
   mkSch ( "INSEAD Scholarship") ( "€10,000-50,000") ( "Rolling")
     ( "MBA/Master\x27s admission")
     ( "Various scholarships for INSEAD programs")]

/-- The `"qatar"` list of `_get_mock_scholarships`. -/
def qatarScholarships : List Dict :=
  [mkSch ( "Qatar Foundation Scholarship")
     ( "Full tuition + living expenses") ( "February 28, 2025")
     ( "Excellent academics, leadership")
     ( "For international students studying in Qatar"),
   mkSch ( "Hamad Bin Khalifa University Scholarship")
     ( "Full funding + stipend") ( "March 1, 2025")
     ( "Admission to HBKU program") ( "For graduate studies at HBKU"),
   mkSch ( "Qatar National Research Fund") ( "$50,000 grant")
     ( "April 30, 2025") ( "Research proposal, PhD level")
     ( "For doctoral research in Qatar"),
   mkSch ( "Texas A&M Qatar Scholarship") ( "Full tuition")
     ( "January 15, 2025") ( "Engineering students")
     ( "For engineering programs at Texas A&M Qatar"),
   mkSch ( "Carnegie Mellon Qatar Scholarship")
     ( "Partial to full tuition") ( "January 1, 2025")
     ( "CS/Business admission")
     ( "Merit-based for CMU Qatar students")]

/-- The `"morocco"` list of `_get_mock_scholarships`. -/
def moroccoScholarships : List Dict :=
  [mkSch ( "Fulbright Morocco Scholarship") ( "Full funding")
     ( "February 1, 2025") ( "Moroccan citizen, leadership")
     ( "US government scholarship for graduate studies"),
   mkSch ( "Chevening Scholarship") ( "Full tuition + £1,200/month")
     ( "November 7, 2025") ( "2+ years work experience")
     ( "UK government scholarship"),
   mkSch ( "DAAD Germany Scholarship") ( "€934/month")
     ( "October 15, 2025") ( "Good academics, English/German")
     ( "German Academic Exchange Service"),
   mkSch ( "Erasmus Mundus") ( "€25,000/year + tuition")
     ( "January 15, 2025") ( "Bachelor\x27s degree")
     ( "EU-funded scholarship"),
   mkSch ( "Turkish Government Scholarship") ( "Full tuition + stipend")
     ( "February 20, 2025") ( "Under 30 for Master\x27s")
     ( "Türkiye Bursları scholarship")]

/-- The `default_scholarships` list of `_get_mock_scholarships`. -/
def defaultScholarships : List Dict :=
  [mkSch ( "Erasmus Mundus Joint Masters") ( "€25,000/year + tuition")
     ( "January 15, 2025")
     ( "Bachelor\x27s degree, English proficiency")
     ( "EU-funded scholarship for international students"),
   mkSch ( "Chevening Scholarship UK") ( "Full tuition + £1,200/month")
     ( "November 7, 2025") ( "2+ years work experience, leadership")
     ( "UK government\x27s global scholarship"),
   mkSch ( "DAAD Scholarship Germany") ( "€934/month + insurance")
     ( "October 15, 2025") ( "Good academic record")
     ( "German Academic Exchange Service"),
   mkSch ( "Fulbright Foreign Student Program") ( "Full funding")
     ( "February 1, 2025") ( "Bachelor\x27s degree, leadership")
     ( "US government scholarship"),
   mkSch ( "Swiss Government Excellence Scholarship")
     ( "CHF 1,920/month") ( "December 2024") ( "Research proposal")
     ( "For doctoral research in Switzerland")]

/-- The country-keyed dict literal of `_get_mock_scholarships`;
`none` models a country absent from the dict. -/
def mockTable (countryLower : String) : Option (List Dict) :=
  if countryLower == franceKey then some franceScholarships
  else if countryLower == qatarKey then some qatarScholarships
  else if countryLower == moroccoKey then some moroccoScholarships
  else none

/-- `_get_mock_scholarships` from tools.py: `scholarships.get(country_lower,
default_scholarships)`.  The `field` and `level` parameters are taken
but unused, exactly as in the source. -/
def mockScholarships (country _field _level : String) : List Dict :=
  (mockTable country.toLower).getD defaultScholarships

/-- The body of the `try` block of `search_scholarships`: `.ok (some xs)`
models a `return` inside the `try`, `.ok none` models falling through
the `try` without returning, `.error` models a raised exception. -/
def searchScholarshipsBody (w : ScholarWorld) (country level : String) :
    Except String (Option (List Dict)) :=
  match w.req country.toLower level.toLower with
  | .exn e => .error e
  | .ok (.jsonList xs) =>
    if xs.length > 0 then .ok (some xs) else .ok none
  | .ok (.jsonDict (some xs)) => .ok (some xs)
  | .ok (.jsonDict none) => .ok none
  | .ok .otherJson => .ok none

/-- `search_scholarships` from tools.py: the try body, an
`except Exception: pass`, and the mock fallback. -/
def searchScholarships (w : ScholarWorld) (country field level : String) :
    List Dict :=
  match searchScholarshipsBody w country level with
  | .ok (some xs) => xs
  | .ok none => mockScholarships country field level
  | .error _ => mockScholarships country field level

/- ================ search_city_info (tools.py) ================ -/

/-- One Tavily source object; all fields are read with `.get`. -/
structure CitySource where
  title : Option String
  url : Option String
  content : Option String

/-- Outcome of the Tavily request: decoded answer and result list, a
`requests.exceptions.RequestException`, or any other exception. -/
inductive CityOutcome where
  | ok (answer : Option String) (results : Option (List CitySource))
  | reqExn (msg : String)
  | otherExn (msg : String)

/-- World oracle for `search_city_info`, keyed by the query string. -/
structure CityWorld where
  search : String → CityOutcome

def kSummary : String := "summary"
def kSources : String := "sources"
def kTitle : String := "title"
def kUrl : String := "url"
def kContent : String := "content"
def tavilyNotSetMsg : String := "TAVILY_API_KEY not set in .env file"
def tavilyApiErrorPre : String := "Tavily API error: "
def noSummaryMsg : String := "No summary available"
def queryPre : String := "interesting facts about "
def querySuf : String := " city tourist information"

/-- The query interpolated into the Tavily payload. -/
def tavilyQuery (city : String) : String :=
  queryPre ++ city ++ querySuf

/-- First `n` characters of a string (`s[:n]` in Python). -/
def strTake (s : String) (n : Nat) : String :=
  String.mk (s.data.take n)

/-- The success payload of `search_city_info`: answer summary plus the
top-3 sources with content truncated to 200 characters. -/
def citySuccessDict (city : String) (answer : Option String)
    (results : Option (List CitySource)) : Dict :=
  [(kCity, PyVal.str city),
   (kSummary, PyVal.str (answer.getD noSummaryMsg)),
   (kSources, PyVal.dicts (((results.getD []).take 3).map (fun s =>
     [(kTitle, PyVal.str (s.title.getD emptyStr)),
      (kUrl, PyVal.str (s.url.getD emptyStr)),
      (kContent, PyVal.str (strTake (s.content.getD emptyStr) 200))])))]

/-- `search_city_info` from tools.py, paired with the list of queries
actually sent over the network during the call.  The environment is
the value of `os.getenv("TAVILY_API_KEY")`; `if not api_key` is true
for an unset variable and for an empty string. -/
def searchCityInfo (env : Option String) (w : CityWorld) (city : String) :
    Dict × List String :=
  match env with
  | none => ([(kError, PyVal.str tavilyNotSetMsg)], [])
  | some key =>
    if key == emptyStr then ([(kError, PyVal.str tavilyNotSetMsg)], [])
    else
      let q := tavilyQuery city
      match w.search q with
      | .ok answer results => (citySuccessDict city answer results, [q])
      | .reqExn e =>
        ([(kError, PyVal.str (tavilyApiErrorPre ++ e)),
          (kCity, PyVal.str city)], [q])
      | .otherExn e =>
        ([(kError, PyVal.str (unexpectedErrorPre ++ e)),
          (kCity, PyVal.str city)], [q])

/- ================ SessionState and callbacks (agents.py) ================ -/

/-- A value stored in the ADK session state. -/
inductive StateVal where
  | nat (n : Nat)
  | str (s : String)
  | bool (b : Bool)
deriving DecidableEq

/-- The session state: a mutable string-keyed store. -/
def SessionState : Type := String → Option StateVal

/-- The empty session state of a fresh session. -/
def emptyState : SessionState := fun _ => none

/-- Write one key. -/
def setK (st : SessionState) (k : String) (v : StateVal) : SessionState :=
  fun k2 => if k2 == k then some v else st k2

/-- `state.get(key, 0)` for the call counter: missing or non-numeric
values read as 0. -/
def getNatD (st : SessionState) (k : String) : Nat :=
  match st k with
  | some (.nat n) => n
  | _ => 0

/-- Python truthiness of a stored value, for
`current_state.get("skip_processing", False)`. -/
def truthy : Option StateVal → Bool
  | some (.bool b) => b
  | some (.nat n) => n != 0
  | some (.str s) => s != emptyStr
  | none => false

def callCountKey : String := "user:agent_call_count"
def currentAgentKey : String := "temp:current_agent"
def skipKey : String := "skip_processing"
def rootAgentName : String := "root_agent"
def skippedPre : String := "Agent "
def skippedSuf : String := " skipped."

/-- The synthetic content returned when an agent is skipped:
`f"Agent {agent_name} skipped."`. -/
def skippedMsg (agentName : String) : String :=
  skippedPre ++ agentName ++ skippedSuf

/-- `check_and_log_agent_entry` from agents.py: reads a snapshot of the
state, unconditionally increments `user:agent_call_count` and records
`temp:current_agent`, then short-circuits with a synthetic skipped
response when the snapshot has a truthy `skip_processing`. -/
def checkAndLogAgentEntry (agentName : String) (st : SessionState) :
    SessionState × Option String :=
  let callCount := getNatD st callCountKey + 1
  let st1 := setK st callCountKey (.nat callCount)
  let st2 := setK st1 currentAgentKey (.str agentName)
  if truthy (st skipKey) then (st2, some (skippedMsg agentName))
  else (st2, none)

/- ================ Router classification ================ -/

/-- The routing targets of the root agent. -/
inductive Route where
  | scholarship
  | weather
  | holiday
  | cityFacts
  | decline
deriving DecidableEq

/-- Lower-casing at the character-list level (ASCII, as in the
trigger terms). -/
def toLowerStr (s : String) : String :=
  String.mk (s.data.map Char.toLower)

/-- Substring test on strings (at the character-list level). -/
def substrB (sub s : String) : Bool :=
  s.data.tails.any (fun suf => sub.data.isPrefixOf suf)

/-- Does the text contain any of the trigger terms? -/
def hasAnyTrigger (text : String) (terms : List String) : Bool :=
  terms.any (fun t => substrB t text)

/-- Modelled from the spec: the scholarship-pipeline trigger terms of
the Router's first routing rule (`ROOT_AGENT_PROMPT` in config.py:
"scholarship", "study", "master", "phd", "abroad", "funding"); the
classification itself is performed by the excluded generation backend,
so the dispatch predicate is modelled from the spec's words. -/
def scholarshipTriggers : List String :=
  [( "scholarship"), ( "study"), ( "master"), ( "phd"), ( "abroad"),
   ( "funding")]

/-- Modelled from the spec: weather trigger terms ("weather,
activities, outdoor plans"). -/
def weatherTriggers : List String :=
  [( "weather"), ( "activities"), ( "outdoor")]

/-- Modelled from the spec: holiday trigger terms. -/
def holidayTriggers : List String :=
  [( "holiday"), ( "vacation")]

/-- Modelled from the spec: city-facts trigger terms. -/
def cityTriggers : List String :=
  [( "city"), ( "facts")]

/-- Modelled from the spec: the Router's ordered list of
(trigger-terms, handler) pairs, in the fixed priority order
scholarship > weather > holiday > city-facts. -/
def routingTable : List (List String × Route) :=
  [(scholarshipTriggers, Route.scholarship),
   (weatherTriggers, Route.weather),
   (holidayTriggers, Route.holiday),
   (cityTriggers, Route.cityFacts)]

/-- First-match-wins evaluation of an ordered routing table. -/
def firstMatch : List (List String × Route) → String → Route
  | [], _ => Route.decline
  | (ts, r) :: rest, t =>
    if hasAnyTrigger t ts then r else firstMatch rest t

/-- Modelled from the spec: the Router's deterministic classification —
lower-case the request text and evaluate the routing table
first-match-wins, declining when nothing matches.  The source delegates
this matching to the excluded generation backend via the prompt's
routing rules. -/
def classify (text : String) : Route :=
  firstMatch routingTable (toLowerStr text)

/- ================ Dispatch of one turn ================ -/

/-- Observable backend events of one turn. -/
inductive Event where
  | handlerRun (name : String)
  | toolCall (name : String)
  | genCall
deriving DecidableEq

/-- The handler-side behaviour of one turn, supplied as an oracle
because handler bodies are executed by the excluded generation
backend: the request text, the state keys the handler writes, the
tools it calls and its final response text. -/
structure TurnInput where
  text : String
  handlerWrites : List (String × StateVal)
  toolCalls : List String
  handlerResponse : String

/-- Result of dispatching one turn. -/
structure TurnOutput where
  state : SessionState
  response : String
  events : List Event

/-- Apply the handler's state writes in order. -/
def applyWrites (ws : List (String × StateVal)) (st : SessionState) :
    SessionState :=
  ws.foldl (fun s kv => setK s kv.1 kv.2) st

/-- Handler name of a route. -/
def routeName : Route → String
  | .scholarship => "scholarship_pipeline"
  | .weather => "weather_agent"
  | .holiday => "holiday_agent"
  | .cityFacts => "city_info_agent"
  | .decline => rootAgentName

/-- The canned decline response of the Router (rule 5 of the root
instruction). -/
def declineResponse : String :=
  "I am specialised in travel and study questions."

/-- Modelled from the spec: one Router dispatch.  The entry hook
(`check_and_log_agent_entry`, attached as `before_agent_callback` of
`root_agent`) runs first; if it returns a synthetic response the turn
ends there and no handler, tool or generation event occurs.  Otherwise
the request is classified and the chosen handler runs (its behaviour
supplied by the `TurnInput` oracle), producing handler/tool/generation
events.  The dispatch loop itself lives in the excluded ADK runtime,
so it is modelled from the spec's words. -/
def dispatchTurn (t : TurnInput) (st : SessionState) : TurnOutput :=
  match checkAndLogAgentEntry rootAgentName st with
  | (st1, some msg) => ⟨st1, msg, []⟩
  | (st1, none) =>
    match classify t.text with
    | .decline => ⟨st1, declineResponse, []⟩
    | rt =>
      ⟨applyWrites t.handlerWrites st1, t.handlerResponse,
        Event.handlerRun (routeName rt) ::
          t.toolCalls.map Event.toolCall ++ [Event.genCall]⟩

/-- Modelled from the spec: a sequence of dispatched turns in one
session, threading the session state. -/
def runTurns (ts : List TurnInput) (st : SessionState) : SessionState :=
  ts.foldl (fun s t => (dispatchTurn t s).state) st

/- ================ Scholarship rank stage ================ -/

/-- Numeric value of a digit run (most significant first). -/
def digitsVal (cs : List Char) : Nat :=
  cs.foldl (fun n c => 10 * n + (c.toNat - 48)) 0

/-- Modelled from the spec: normalisation of a free-text currency
amount to a comparable numeric magnitude with an explicit unparseable
outcome (spec §4.4/§9; the source's rank stage is an instruction
executed by the excluded generation backend).  Commas are thousand
separators; the first contiguous digit run is the magnitude; a text
with no digit is unparseable. -/
def parseAmount (s : String) : Option Nat :=
  let cs := (s.data.filter (fun c => c ≠ ',')).dropWhile
    (fun c => ¬ c.isDigit)
  let run := cs.takeWhile Char.isDigit
  if run.isEmpty then none else some (digitsVal run)

/-- The free-text `amount` field of a scholarship entry. -/
def amountText (d : Dict) : Option String :=
  match lookupVal kAmount d with
  | some (PyVal.str s) => some s
  | _ => none

/-- Normalised amount of an entry: `none` when the entry has no
string `amount` field or its text has no parseable magnitude. -/
def amountKey (d : Dict) : Option Nat :=
  (amountText d).bind parseAmount

/-- Sort rank of an entry as an integer: parseable magnitudes in
descending order (negated), unparseable entries strictly after all of
them. -/
def krank (d : Dict) : Int :=
  match amountKey d with
  | some v => -(v : Int)
  | none => 1

/-- The sort order on index-decorated entries: by rank, ties broken by
original position — so sorting is stable by construction. -/
def rankOrder (a b : Nat × Dict) : Prop :=
  krank a.2 < krank b.2 ∨ (krank a.2 = krank b.2 ∧ a.1 ≤ b.1)

instance : DecidableRel rankOrder := fun a b => by
  unfold rankOrder; infer_instance

instance : IsTotal (Nat × Dict) rankOrder :=
  ⟨fun a b => by unfold rankOrder; omega⟩

instance : IsTrans (Nat × Dict) rankOrder :=
  ⟨fun a b c => by unfold rankOrder; omega⟩

/-- Modelled from the spec: the rank stage on index-decorated entries —
decorate with original positions, sort stably by descending normalised
amount (unparseable last), keep the top 3. -/
def rankStageD (l : List Dict) : List (Nat × Dict) :=
  (List.insertionSort rankOrder l.enum).take 3

/-- Modelled from the spec: the rank stage of the scholarship pipeline
(`scholarship_ranking_agent`): reads the `scholarship_results` list,
sorts by amount descending, selects the top 3. -/
def rankStage (l : List Dict) : List Dict :=
  (rankStageD l).map Prod.snd

/-- Descending comparison by normalised amount, unparseable entries
never before parseable ones. -/
def amountGE (x y : Dict) : Prop :=
  match amountKey x, amountKey y with
  | some a, some b => b ≤ a
  | some _, none => True
  | none, some _ => False
  | none, none => True

/- ================ Concrete inputs for witnesses ================ -/

/-- A request text containing both a weather and a scholarship trigger. -/
def c1Text : String := "weather scholarship"

/-- A plain weather request used for the counter counterexample. -/
def c2Text : String := "what is the weather in Fes"

def c2Resp : String := "It is sunny."

/-- One ordinary dispatched turn (no handler state writes). -/
def c2Turn : TurnInput := ⟨c2Text, [], [], c2Resp⟩

/-- The key name the spec claims the counter lives under. -/
def userCallCountKey : String := "user:call_count"

def c3Text : String := "weather in Rabat"

def c3Resp : String := "sunny"

def c3Turn : TurnInput := ⟨c3Text, [], [], c3Resp⟩

/-- A session state with `skip_processing` set to `True`. -/
def c3State : SessionState := setK emptyState skipKey (StateVal.bool true)

def c5ExnMsg : String := "scholarshipsapi.com unreachable"

/-- A scholarships world where every request raises, for the C5
counterexample. -/
def c5World : ScholarWorld := ⟨fun _ _ => ScholarOutcome.exn c5ExnMsg⟩

def c5Country : String := "Spain"

def c5Field : String := "Medicine"

def c5Level : String := "phd"

def c6ExnMsg : String := "connection timed out"

/-- A weather world where every request raises. -/
def c6World : WeatherWorld :=
  ⟨fun _ => HttpOutcome.exn c6ExnMsg, fun _ _ => HttpOutcome.exn c6ExnMsg⟩

def c6City : String := "Paris"

def c7ExnMsg : String := "connection refused"

/-- A scholarships world where every request raises. -/
def c7World : ScholarWorld := ⟨fun _ _ => ScholarOutcome.exn c7ExnMsg⟩

def c7Country : String := "Germany"

def c7Field : String := "Computer Science"

def c7Level : String := "master"

def c8Msg404 : String := "404 Client Error: Not Found for url"

/-- A holiday world where every request yields an HTTP 404. -/
def c8World : HolidayWorld := ⟨fun _ _ => HolidayOutcome.httpError 404 c8Msg404⟩

def c8Code : String := "XX"

/-- `sub` occurs as a contiguous substring of `s` (stated on the
underlying character lists). -/
def containsStr (sub s : String) : Prop :=
  ∃ x y : List Char, s.data = x ++ sub.data ++ y

/-- The six example codes listed by the corrective message of
`get_public_holidays`. -/
def exampleCodes : List String :=
  [exMA, exFR, exUS, exDE, exGB, exJP]

/- ======================= Theorems ======================= -/

/-- Claim C10: for every city, if the TAVILY_API_KEY environment
variable is unset, `search_city_info` returns the error dict
`{"error": "TAVILY_API_KEY not set in .env file"}` and sends no
network request. -/
theorem C10_tavily_key_unset (w : CityWorld) (city : String) :
    searchCityInfo none w city =
      ([(kError, PyVal.str tavilyNotSetMsg)], []) := rfl

/-- Claim C9: the output of `search_scholarships` is independent of its
`field` argument — the live request omits `field` and the fallback
dataset is keyed by lower-cased country only. -/
theorem C9_field_independence (w : ScholarWorld)
    (country level f1 f2 : String) :
    searchScholarships w country f1 level =
      searchScholarships w country f2 level := by
  cases hb : searchScholarshipsBody w country level with
  | error e => simp [searchScholarships, hb, mockScholarships]
  | ok o =>
    cases o with
    | none => simp [searchScholarships, hb, mockScholarships]
    | some xs => simp [searchScholarships, hb]

/-- A normally-returned `get_weather` body value is either the
city-not-found error dict or the full success payload. -/
theorem getWeatherBody_ok_shape (w : WeatherWorld) (city : String)
    (d : Dict) (h : getWeatherBody w city = Except.ok d) :
    d = cityNotFoundDict city ∨ ∃ hit wd, d = weatherSuccessDict hit wd := by
  cases hg : w.geocode city with
  | exn e => simp [getWeatherBody, hg] at h
  | ok geo =>
    cases hr : geo.results with
    | none =>
      simp [getWeatherBody, hg, hr] at h
      first
      | exact Or.inl h
      | exact Or.inl h.symm
    | some hits =>
      cases hits with
      | nil =>
        simp [getWeatherBody, hg, hr] at h
        first
        | exact Or.inl h
        | exact Or.inl h.symm
      | cons hit rest =>
        cases hf : w.forecast hit.latitude hit.longitude with
        | exn e => simp [getWeatherBody, hg, hr, hf] at h
        | ok wd =>
          simp [getWeatherBody, hg, hr, hf] at h
          refine Or.inr ⟨hit, wd, ?_⟩
          first
          | exact h
          | exact h.symm

/-- Claim C6 counterexample: in a world where the geocoding request
raises, `get_weather` returns the mock fallback dict, which is neither
the full success payload nor a dict containing an `error` field — a
third output shape the claim excludes. -/
theorem C6_counterexample :
    ¬ (isWeatherSuccessShape (getWeather c6World c6City) = true ∨
       hasKey kError (getWeather c6World c6City) = true) := by
  decide

/-- Claim C6 (amended): for every city, the output of `get_weather` is
the full success payload, or a dict containing an `error` field (city
not found), or the mock fallback shape
`{city, temperature: 20, condition: "Unknown", description}` produced
when an exception occurs — exactly these three shapes. -/
theorem C6_weather_output_shapes (w : WeatherWorld) (city : String) :
    isWeatherSuccessShape (getWeather w city) = true ∨
    hasKey kError (getWeather w city) = true ∨
    isWeatherMockShape (getWeather w city) = true := by
  cases hb : getWeatherBody w city with
  | error e =>
    right; right
    simp [getWeather, hb, isWeatherMockShape, mockWeatherDict]
  | ok d =>
    have hshape := getWeatherBody_ok_shape w city d hb
    have hval : getWeather w city = d := by simp [getWeather, hb]
    rw [hval]
    rcases hshape with h | ⟨hit, wd, h⟩
    · right; left
      rw [h]
      simp [hasKey, cityNotFoundDict]
    · left
      rw [h]
      simp [isWeatherSuccessShape, weatherSuccessDict]

/-- Claim C5 counterexample: in a world where the scholarship request
raises, the `try` body of `search_scholarships` fails with that
reason, yet the adapter returns the plain mock dataset: no entry of
the returned value carries an `error` tag, so the failure is not
returned as a tagged failure value with a human-readable reason — it
is silently discarded by `except Exception: pass`. -/
theorem C5_counterexample :
    searchScholarshipsBody c5World c5Country c5Level =
      Except.error c5ExnMsg ∧
    searchScholarships c5World c5Country c5Field c5Level =
      mockScholarships c5Country c5Field c5Level ∧
    (mockScholarships c5Country c5Field c5Level).all
      (fun e => !(hasKey kError e)) = true := by
  refine ⟨rfl, rfl, ?_⟩
  unfold mockScholarships mockTable
  split
  · decide
  · split
    · decide
    · split
      · decide
      · decide

/-- Claim C5 (amended): each tool adapter returns a value for every
world and input and never raises past the adapter boundary — every
exception raised inside the `try` body is caught and converted into a
returned value.  Only `get_public_holidays` returns failures as a
tagged `{error}` entry with a human-readable reason; `get_weather`
falls back to the mock payload carrying the reason only inside its
description text, and `search_scholarships` discards the failure and
returns the untagged mock dataset. -/
theorem C5_adapters_never_raise :
    (∀ (w : WeatherWorld) (city : String),
      (∃ d, getWeatherBody w city = Except.ok d ∧ getWeather w city = d) ∨
      (∃ e, getWeatherBody w city = Except.error e ∧
        getWeather w city = mockWeatherDict city (couldNotFetchPre ++ e))) ∧
    (∀ (w : HolidayWorld) (code : String) (year : Nat),
      (∃ l, getPublicHolidaysBody w code year = Except.ok l ∧
        getPublicHolidays w code year = l) ∨
      (∃ e, getPublicHolidaysBody w code year = Except.error e ∧
        getPublicHolidays w code year = [holidayErrEntry code e])) ∧
    (∀ (w : ScholarWorld) (country field level : String),
      (∃ xs, searchScholarshipsBody w country level = Except.ok (some xs) ∧
        searchScholarships w country field level = xs) ∨
      (searchScholarships w country field level =
        mockScholarships country field level)) ∧
    (∀ (code : String) (e : HolidayExn),
      hasKey kError (holidayErrEntry code e) = true) := by
  refine ⟨?_, ?_, ?_, ?_⟩
  · intro w city
    cases hb : getWeatherBody w city with
    | ok d => exact Or.inl ⟨d, rfl, by simp [getWeather, hb]⟩
    | error e => exact Or.inr ⟨e, rfl, by simp [getWeather, hb]⟩
  · intro w code year
    cases hb : getPublicHolidaysBody w code year with
    | ok l => exact Or.inl ⟨l, rfl, by simp [getPublicHolidays, hb]⟩
    | error e => exact Or.inr ⟨e, rfl, by simp [getPublicHolidays, hb]⟩
  · intro w country field level
    cases hb : searchScholarshipsBody w country level with
    | ok o =>
      cases o with
      | some xs => exact Or.inl ⟨xs, rfl, by simp [searchScholarships, hb]⟩
      | none => exact Or.inr (by simp [searchScholarships, hb])
    | error e => exact Or.inr (by simp [searchScholarships, hb])
  · intro code e
    cases e with
    | httpError s m =>
      unfold holidayErrEntry
      split <;> simp [hasKey]
    | other m => simp [holidayErrEntry, hasKey]

/-- Claim C1: a request containing both a scholarship-pipeline trigger
term and a weather trigger term is classified to the scholarship
pipeline and not to the weather handler — the scholarship predicate is
first in the Router's fixed first-match-wins priority order. -/
theorem C1_router_priority (text : String)
    (hs : hasAnyTrigger (toLowerStr text) scholarshipTriggers = true)
    (_hw : hasAnyTrigger (toLowerStr text) weatherTriggers = true) :
    classify text = Route.scholarship ∧ classify text ≠ Route.weather := by
  have h : classify text = Route.scholarship := by
    simp [classify, routingTable, firstMatch, hs]
  exact ⟨h, by simp [h]⟩

/-- Witness for C1 at the concrete request `"weather scholarship"`. -/
theorem C1_router_priority_witness :
    (hasAnyTrigger (toLowerStr c1Text) scholarshipTriggers = true ∧
     hasAnyTrigger (toLowerStr c1Text) weatherTriggers = true) ∧
    (classify c1Text = Route.scholarship ∧
     classify c1Text ≠ Route.weather) :=
  ⟨⟨by decide, by decide⟩,
   C1_router_priority c1Text (by decide) (by decide)⟩

/-- Claim C3: when the session state has `skip_processing` set to true
before a dispatch, the entry hook returns the synthetic skipped-marker
response, the Router short-circuits, and no handler, tool or
generation event occurs in that turn (the state still receives the
hook's counter update). -/
theorem C3_skip_short_circuit (t : TurnInput) (st : SessionState)
    (h : st skipKey = some (StateVal.bool true)) :
    (dispatchTurn t st).response = skippedMsg rootAgentName ∧
    (dispatchTurn t st).events = [] ∧
    (dispatchTurn t st).state = (checkAndLogAgentEntry rootAgentName st).1 := by
  have h2 : (checkAndLogAgentEntry rootAgentName st).2 =
      some (skippedMsg rootAgentName) := by
    unfold checkAndLogAgentEntry
    simp [h, truthy]
  rcases hE : checkAndLogAgentEntry rootAgentName st with ⟨st1, sc⟩
  have hsc : sc = some (skippedMsg rootAgentName) := by
    rw [hE] at h2; exact h2
  subst hsc
  simp [dispatchTurn, hE]

/-- Witness for C3: a session whose state sets `skip_processing`. -/
theorem C3_skip_short_circuit_witness :
    (c3State skipKey = some (StateVal.bool true)) ∧
    ((dispatchTurn c3Turn c3State).response = skippedMsg rootAgentName ∧
     (dispatchTurn c3Turn c3State).events = [] ∧
     (dispatchTurn c3Turn c3State).state =
       (checkAndLogAgentEntry rootAgentName c3State).1) :=
  ⟨by decide, C3_skip_short_circuit c3Turn c3State (by decide)⟩

/-- Reading a key other than the one just written. -/
theorem setK_ne (st : SessionState) (k : String) (v : StateVal)
    (k2 : String) (h : k2 ≠ k) : setK st k v k2 = st k2 := by
  simp [setK, h]

/-- Reading the key just written. -/
theorem setK_self (st : SessionState) (k : String) (v : StateVal) :
    setK st k v k = some v := by
  simp [setK]

/-- Handler writes that avoid a key leave that key unchanged. -/
theorem applyWrites_ne (ws : List (String × StateVal)) (st : SessionState)
    (k : String) (h : ∀ kv ∈ ws, kv.1 ≠ k) : applyWrites ws st k = st k := by
  induction ws generalizing st with
  | nil => rfl
  | cons a tl ih =>
    have h1 : a.1 ≠ k := h a (List.mem_cons_self a tl)
    have h2 : ∀ kv ∈ tl, kv.1 ≠ k := fun kv hkv =>
      h kv (List.mem_cons_of_mem a hkv)
    show applyWrites tl (setK st a.1 a.2) k = st k
    rw [ih _ h2, setK_ne _ _ _ _ (Ne.symm h1)]

/-- The entry hook always stores the incremented call counter,
whether or not it short-circuits. -/
theorem entry_counter (n : String) (st : SessionState) :
    (checkAndLogAgentEntry n st).1 callCountKey =
      some (StateVal.nat (getNatD st callCountKey + 1)) := by
  unfold checkAndLogAgentEntry
  split <;>
  · show setK (setK st callCountKey
        (StateVal.nat (getNatD st callCountKey + 1)))
        currentAgentKey (StateVal.str n) callCountKey =
      some (StateVal.nat (getNatD st callCountKey + 1))
    rw [setK_ne _ _ _ _ (by decide), setK_self]

/-- One dispatched turn whose handler does not write the counter key
increments the stored counter by exactly one. -/
theorem dispatch_counter (t : TurnInput) (st : SessionState)
    (hw : ∀ kv ∈ t.handlerWrites, kv.1 ≠ callCountKey) :
    (dispatchTurn t st).state callCountKey =
      some (StateVal.nat (getNatD st callCountKey + 1)) := by
  rcases hE : checkAndLogAgentEntry rootAgentName st with ⟨st1, sc⟩
  have h1 : st1 callCountKey =
      some (StateVal.nat (getNatD st callCountKey + 1)) := by
    have h := entry_counter rootAgentName st
    rw [hE] at h
    exact h
  cases sc with
  | some msg => simp [dispatchTurn, hE, h1]
  | none =>
    cases hc : classify t.text with
    | decline => simp [dispatchTurn, hE, hc, h1]
    | scholarship =>
      simp [dispatchTurn, hE, hc]
      rw [applyWrites_ne _ _ _ hw, h1]
    | weather =>
      simp [dispatchTurn, hE, hc]
      rw [applyWrites_ne _ _ _ hw, h1]
    | holiday =>
      simp [dispatchTurn, hE, hc]
      rw [applyWrites_ne _ _ _ hw, h1]
    | cityFacts =>
      simp [dispatchTurn, hE, hc]
      rw [applyWrites_ne _ _ _ hw, h1]

/-- Across a sequence of dispatched turns the stored counter grows by
the number of turns. -/
theorem runTurns_counter (ts : List TurnInput) (st : SessionState)
    (hw : ∀ t ∈ ts, ∀ kv ∈ t.handlerWrites, kv.1 ≠ callCountKey) :
    getNatD (runTurns ts st) callCountKey =
      getNatD st callCountKey + ts.length := by
  induction ts generalizing st with
  | nil => rfl
  | cons t tl ih =>
    have hstep := dispatch_counter t st (hw t (List.mem_cons_self t tl))
    show getNatD (runTurns tl (dispatchTurn t st).state) callCountKey = _
    rw [ih _ (fun t2 h2 => hw t2 (List.mem_cons_of_mem t h2))]
    simp [getNatD, hstep]
    omega

/-- Claim C2 counterexample: after one dispatched turn in a fresh
session the state has no key `user:call_count` at all — the code
stores the counter under `user:agent_call_count`, so the claim as
stated (key `user:call_count` equals N) fails at N = 1. -/
theorem C2_counterexample :
    (runTurns [c2Turn] emptyState) userCallCountKey = none ∧
    getNatD (runTurns [c2Turn] emptyState) userCallCountKey ≠ 1 ∧
    getNatD (runTurns [c2Turn] emptyState) callCountKey = 1 := by
  decide

/-- Claim C2 (amended): for every session and every sequence of N
dispatched turns whose handlers do not write the counter key, the
SessionState key `user:agent_call_count` (not `user:call_count` as the
spec names it) equals N afterwards, regardless of which handler was
dispatched and including turns short-circuited by `skip_processing` —
the entry hook increments the counter unconditionally before the skip
decision. -/
theorem C2_call_count_invariant (ts : List TurnInput) (st0 : SessionState)
    (hw : ∀ t ∈ ts, ∀ kv ∈ t.handlerWrites, kv.1 ≠ callCountKey)
    (h0 : st0 callCountKey = none) :
    getNatD (runTurns ts st0) callCountKey = ts.length := by
  rw [runTurns_counter ts st0 hw]
  simp [getNatD, h0]

/-- Witness for C2 (amended) on one concrete turn from a fresh session. -/
theorem C2_call_count_invariant_witness :
    ((∀ t ∈ [c2Turn], ∀ kv ∈ t.handlerWrites, kv.1 ≠ callCountKey) ∧
     emptyState callCountKey = none) ∧
    getNatD (runTurns [c2Turn] emptyState) callCountKey = 1 :=
  ⟨⟨by decide, rfl⟩,
   C2_call_count_invariant [c2Turn] emptyState (by decide) rfl⟩

/-- Any split of the example-code tail of the corrective message gives
a substring occurrence in the full message, for every country code. -/
theorem countryNotFoundMsg_contains (code : String) (ex pre post : String)
    (h : pre.data ++ ex.data ++ post.data = exAll.data) :
    containsStr ex (countryNotFoundMsg code) := by
  refine ⟨ccPre.data ++ code.data ++ ccMid.data ++ pre.data, post.data, ?_⟩
  have hmsg : (countryNotFoundMsg code).data =
      ccPre.data ++ (code.data ++ (ccMid.data ++ exAll.data)) := by
    simp [countryNotFoundMsg]
  rw [hmsg, ← h]
  simp

/-- Claim C8: whenever the holiday lookup reports not-found (HTTP 404),
`get_public_holidays` returns a single error entry whose message is
the corrective text listing the six example ISO 3166-1 alpha-2 codes,
and that message is never of the raw `"HTTP error: ..."` form. -/
theorem C8_holiday_not_found (w : HolidayWorld) (code : String)
    (year : Nat) (m : String)
    (h : w.req year code.toUpper = HolidayOutcome.httpError 404 m) :
    getPublicHolidays w code year =
      [[(kError, PyVal.str (countryNotFoundMsg code))]] ∧
    (∀ ex ∈ exampleCodes, containsStr ex (countryNotFoundMsg code)) ∧
    (∀ e, countryNotFoundMsg code ≠ httpErrorPre ++ e) := by
  refine ⟨?_, ?_, ?_⟩
  · simp [getPublicHolidays, getPublicHolidaysBody, h, holidayErrEntry]
  · intro ex hex
    simp only [exampleCodes, List.mem_cons, List.not_mem_nil, or_false] at hex
    rcases hex with rfl | rfl | rfl | rfl | rfl | rfl
    · exact countryNotFoundMsg_contains code exMA emptyStr
        ( ", FR (France), US (USA), DE (Germany), GB (UK), JP (Japan)")
        (by decide)
    · exact countryNotFoundMsg_contains code exFR ( "MA (Morocco), ")
        ( ", US (USA), DE (Germany), GB (UK), JP (Japan)") (by decide)
    · exact countryNotFoundMsg_contains code exUS
        ( "MA (Morocco), FR (France), ")
        ( ", DE (Germany), GB (UK), JP (Japan)") (by decide)
    · exact countryNotFoundMsg_contains code exDE
        ( "MA (Morocco), FR (France), US (USA), ")
        ( ", GB (UK), JP (Japan)") (by decide)
    · exact countryNotFoundMsg_contains code exGB
        ( "MA (Morocco), FR (France), US (USA), DE (Germany), ")
        ( ", JP (Japan)") (by decide)
    · exact countryNotFoundMsg_contains code exJP
        ( "MA (Morocco), FR (France), US (USA), DE (Germany), GB (UK), ")
        emptyStr (by decide)
  · intro e he
    have hd : (countryNotFoundMsg code).data = (httpErrorPre ++ e).data := by
      rw [he]
    have hmsg : (countryNotFoundMsg code).data =
        ccPre.data ++ (code.data ++ (ccMid.data ++ exAll.data)) := by
      simp [countryNotFoundMsg]
    have hc : ccPre.data = 'C' :: ( "ountry code \x27").data := by decide
    have hh : httpErrorPre.data = 'H' :: ( "TTP error: ").data := by decide
    rw [hmsg, String.data_append, hc, hh] at hd
    simp only [List.cons_append] at hd
    injection hd with hhead _
    exact absurd hhead (by decide)

/-- Witness for C8 on a concrete 404 world and country code. -/
theorem C8_holiday_not_found_witness :
    (c8World.req 2025 c8Code.toUpper =
      HolidayOutcome.httpError 404 c8Msg404) ∧
    (getPublicHolidays c8World c8Code 2025 =
      [[(kError, PyVal.str (countryNotFoundMsg c8Code))]] ∧
    (∀ ex ∈ exampleCodes, containsStr ex (countryNotFoundMsg c8Code)) ∧
    (∀ e, countryNotFoundMsg c8Code ≠ httpErrorPre ++ e)) :=
  ⟨rfl, C8_holiday_not_found c8World c8Code 2025 c8Msg404 rfl⟩

/-- Claim C7: when the live scholarship source is unavailable (the
request raises, or the decoded body yields no usable list, so the
`try` block never returns), `search_scholarships` returns the static
built-in dataset selected by the lower-cased country — the dedicated
list for France, Qatar or Morocco, otherwise the generic default — and
that fallback is a non-empty list of entries carrying the name,
amount, deadline, requirements and description fields. -/
theorem C7_mock_fallback (w : ScholarWorld) (country field level : String)
    (hfail : ∀ xs, searchScholarshipsBody w country level ≠
      Except.ok (some xs)) :
    searchScholarships w country field level =
      mockScholarships country field level ∧
    (country.toLower = franceKey →
      mockScholarships country field level = franceScholarships) ∧
    (country.toLower = qatarKey →
      mockScholarships country field level = qatarScholarships) ∧
    (country.toLower = moroccoKey →
      mockScholarships country field level = moroccoScholarships) ∧
    (country.toLower ≠ franceKey → country.toLower ≠ qatarKey →
      country.toLower ≠ moroccoKey →
      mockScholarships country field level = defaultScholarships) ∧
    mockScholarships country field level ≠ [] ∧
    (∀ e ∈ mockScholarships country field level,
      hasKey kName e = true ∧ hasKey kAmount e = true ∧
      hasKey kDeadline e = true ∧ hasKey kRequirements e = true ∧
      hasKey kDescription e = true) := by
  refine ⟨?_, ?_, ?_, ?_, ?_, ?_, ?_⟩
  · cases hb : searchScholarshipsBody w country level with
    | error e => simp [searchScholarships, hb]
    | ok o =>
      cases o with
      | none => simp [searchScholarships, hb]
      | some xs => exact absurd hb (hfail xs)
  · intro h; simp [mockScholarships, mockTable, h]
  · intro h
    simp [mockScholarships, mockTable, h, qatarKey, franceKey]
  · intro h
    simp [mockScholarships, mockTable, h, moroccoKey, franceKey, qatarKey]
  · intro h1 h2 h3
    simp [mockScholarships, mockTable, h1, h2, h3]
  · unfold mockScholarships mockTable
    split
    · simp [franceScholarships]
    · split
      · simp [qatarScholarships]
      · split
        · simp [moroccoScholarships]
        · simp [defaultScholarships]
  · unfold mockScholarships mockTable
    split
    · decide
    · split
      · decide
      · split
        · decide
        · decide

/-- Witness for C7: a concrete world whose scholarship request always
raises, with a country outside the built-in table. -/
theorem C7_mock_fallback_witness :
    (∀ xs, searchScholarshipsBody c7World c7Country c7Level ≠
      Except.ok (some xs)) ∧
    (searchScholarships c7World c7Country c7Field c7Level =
      mockScholarships c7Country c7Field c7Level ∧
    (c7Country.toLower = franceKey →
      mockScholarships c7Country c7Field c7Level = franceScholarships) ∧
    (c7Country.toLower = qatarKey →
      mockScholarships c7Country c7Field c7Level = qatarScholarships) ∧
    (c7Country.toLower = moroccoKey →
      mockScholarships c7Country c7Field c7Level = moroccoScholarships) ∧
    (c7Country.toLower ≠ franceKey → c7Country.toLower ≠ qatarKey →
      c7Country.toLower ≠ moroccoKey →
      mockScholarships c7Country c7Field c7Level = defaultScholarships) ∧
    mockScholarships c7Country c7Field c7Level ≠ [] ∧
    (∀ e ∈ mockScholarships c7Country c7Field c7Level,
      hasKey kName e = true ∧ hasKey kAmount e = true ∧
      hasKey kDeadline e = true ∧ hasKey kRequirements e = true ∧
      hasKey kDescription e = true)) :=
  ⟨fun _ h => Except.noConfusion h,
   C7_mock_fallback c7World c7Country c7Field c7Level
     (fun _ h => Except.noConfusion h)⟩

/-- The sort order implies the descending-amount comparison on the
underlying entries. -/
theorem rankOrder_amountGE {a b : Nat × Dict} (h : rankOrder a b) :
    amountGE a.2 b.2 := by
  have hk : krank a.2 ≤ krank b.2 := by
    unfold rankOrder at h
    omega
  cases hA : amountKey a.2 <;> cases hB : amountKey b.2 <;>
    simp only [amountGE, hA, hB] <;>
    simp only [krank, hA, hB] at hk <;>
    first
    | trivial
    | omega

/-- On entries with equal normalised amounts the sort order preserves
the original positions. -/
theorem rankOrder_tie {a b : Nat × Dict} (h : rankOrder a b)
    (hk : amountKey a.2 = amountKey b.2) : a.1 ≤ b.1 := by
  have hkr : krank a.2 = krank b.2 := by
    unfold krank
    rw [hk]
  unfold rankOrder at h
  omega

/-- Claim C4: for every input list read from `scholarship_results` the
rank stage outputs at most 3 entries, sorted descending by the numeric
magnitude normalised from the free-text amount, with every
unparseable-amount entry after every parseable one; the decorated
output consists of genuine (position, entry) pairs of the input and
orders equal-amount entries by their original positions (stability). -/
theorem C4_rank_stage (l : List Dict) :
    (rankStage l).length ≤ 3 ∧
    List.Sorted amountGE (rankStage l) ∧
    List.Pairwise (fun a b => amountKey a = none → amountKey b = none)
      (rankStage l) ∧
    (∀ x ∈ rankStageD l, x ∈ l.enum) ∧
    List.Pairwise (fun a b => amountKey a.2 = amountKey b.2 → a.1 ≤ b.1)
      (rankStageD l) := by
  have hsorted : List.Sorted rankOrder
      (List.insertionSort rankOrder l.enum) :=
    List.sorted_insertionSort rankOrder l.enum
  have htake : List.Pairwise rankOrder (rankStageD l) :=
    List.Pairwise.sublist (List.take_sublist 3 _) hsorted
  have hGE : List.Pairwise amountGE (rankStage l) :=
    (List.pairwise_map).mpr (htake.imp (fun h => rankOrder_amountGE h))
  refine ⟨?_, hGE, ?_, ?_, ?_⟩
  · simp [rankStage, rankStageD]
  · refine hGE.imp ?_
    intro a b hge hna
    cases hB : amountKey b with
    | none => rfl
    | some v =>
      simp only [amountGE, hna, hB] at hge
  · intro x hx
    exact (List.perm_insertionSort rankOrder l.enum).subset
      ((List.take_subset 3 _) hx)
  · exact htake.imp (fun h hk => rankOrder_tie h hk)
